import Mathlib

/-!
Shallow embedding of `src/pixie/overlay.py` (the `__PIXIE__` runtime overlay
of a PIXIE-compiled C extension): the manifest data model, the load-time
symbol/variant binding performed by `main`, and the `specialize` entry point,
together with the parts of the design taxonomy needed to state the claims.
-/

set_option autoImplicit false

deriving instance DecidableEq for Except

namespace PixieOverlay

/-- Python exception classes observable from the overlay code, together with
the error classes of the design's error taxonomy that the claims name.
The code itself only ever raises `importError` (from
`importlib.import_module`, swallowed in `main`) and `attributeError`
(from `getattr` on a `ctypes.CDLL` whose symbol is absent).
`missingSymbolError` is the class named by the design taxonomy; no code path
raises it. -/
inductive PyExc where
  | importError
  | attributeError
  | missingSymbolError
  deriving DecidableEq

/-- A loaded shared object (`ctypes.CDLL(obj.__file__)`): a symbol table
mapping symbol names to function-pointer values, plus the bitcode bytes
served by the generated `get_bitcode_for_<mod>` accessor pair. -/
structure DSO where
  symtab : List (String × Nat)
  bitcode_bytes : List Nat
  deriving DecidableEq

/-- `getattr(DSO, name)`: first-match lookup in the symbol table; a missing
symbol raises `AttributeError`. -/
def getattr_dso (dso : DSO) (name : String) : Except PyExc Nat :=
  match dso.symtab.lookup name with
  | some fptr => Except.ok fptr
  | none => Except.error PyExc.attributeError

/-- overlay.py lines 10-11: `address_of_symbol(DSO, symbol_name)` is exactly
`getattr(DSO, symbol_name)`. -/
def address_of_symbol (dso : DSO) (symbol_name : String) : Except PyExc Nat :=
  getattr_dso dso symbol_name

/-- overlay.py lines 14-25: `get_bitcode(DSO, obj)` looks up the two
generated accessor symbols derived from the module name and reads the
embedded bitcode bytes through them. Either `getattr` can raise
`AttributeError`; the size/data calls themselves are modelled by the
`bitcode_bytes` the DSO serves. -/
def get_bitcode (dso : DSO) (mod_name : String) : Except PyExc (List Nat) :=
  match getattr_dso dso ("get_bitcode_for_" ++ mod_name ++ "_size") with
  | Except.error e => Except.error e
  | Except.ok _ =>
    match getattr_dso dso ("get_bitcode_for_" ++ mod_name) with
    | Except.error e => Except.error e
    | Except.ok _ => Except.ok dso.bitcode_bytes

/-- The per-signature dict built by `add_variant` (overlay.py lines 156-171):
`address`/`cfunc` are unresolved (`None`) until load time and
`feature_variants` maps a feature/CPU name to a raw symbol name. -/
structure RawVariant where
  ctypes_cfunctype : String
  symbol : String
  module : Option String
  source_file : Option String
  address : Option Nat
  cfunc : Option Nat
  feature_variants : List (String × String)
  baseline_feature : String
  metadata : Option String
  deriving DecidableEq

/-- One bound feature-variant entry as built by `main` (overlay.py lines
141-147): a fresh dict with `symbol`, `address` and `cfunc` keys. The ctypes
callable produced by applying the CFUNCTYPE binding to an address is
modelled by the address it wraps. -/
structure BoundVariant where
  symbol : String
  address : Nat
  cfunc : Nat
  deriving DecidableEq

/-- The per-signature dict after `main` has fixed up its bindings against
the loaded image (overlay.py lines 128-148). -/
structure ResolvedVariant where
  ctypes_cfunctype : String
  symbol : String
  module : Option String
  source_file : Option String
  address : Option Nat
  cfunc : Option Nat
  feature_variants : List (String × BoundVariant)
  baseline_feature : String
  metadata : Option String
  deriving DecidableEq

/-- The `__PIXIE__` dict as it sits in the payload before `main` runs
(overlay.py lines 174-183, with `symbols` filled in by builder code via
`add_variant`). -/
structure PixieDict where
  symbols : List (String × List (String × RawVariant))
  c_header : List String
  linkage : Option String
  bitcode : Option (List Nat)
  uuid : Option String
  is_specialized : Bool
  deriving DecidableEq

/-- The `__PIXIE__` dict after `main` has run for some module: bindings
resolved, `bitcode` filled in, and a `specialize` closure installed. The
`specialize` field records the module name the closure was built over
(`none` models the key being absent). -/
structure ResolvedPixie where
  symbols : List (String × List (String × ResolvedVariant))
  c_header : List String
  linkage : Option String
  bitcode : Option (List Nat)
  uuid : Option String
  is_specialized : Bool
  specialize : Option String
  deriving DecidableEq

/-- overlay.py lines 174-196 (`create_base_payload`), `__PIXIE__` part.
The `__PIXIE_assemblers__` part carries the source text of `main`,
`get_bitcode`, `address_of_symbol`, `bootstrap` and `specialize`; executing
those snippets at load time yields the very functions embedded here, so the
assembler table is modelled by direct calls to them. -/
def create_base_payload : PixieDict :=
  { symbols := []
    c_header := ["<write it>"]
    linkage := none
    bitcode := none
    uuid := none
    is_specialized := false }

/-- overlay.py lines 156-171 (`add_variant`): builds a fresh per-signature
dict with unresolved `address`/`cfunc`. Every path returns the dict; the
result is rendered in `Except` so that the design taxonomy's
`DuplicateVariantError` is statable against it. -/
inductive ManifestExc where
  | duplicateVariantError
  deriving DecidableEq

def add_variant (ctypes_func_string : String) (raw_symbol : String)
    (baseline : String) (feature_variants : Option (List (String × String)))
    (module : Option String) (source_file : Option String)
    (metadata : Option String) : Except ManifestExc RawVariant :=
  Except.ok
    { ctypes_cfunctype := ctypes_func_string
      symbol := raw_symbol
      module := module
      source_file := source_file
      address := none
      cfunc := none
      feature_variants := match feature_variants with
        | none => []
        | some l => l
      baseline_feature := baseline
      metadata := metadata }

/-- overlay.py lines 138-148: the `for variant, symbol in variants.items()`
loop of `main`; each feature variant's symbol is looked up in the image and
bound (`vdict`), in insertion order; a missing symbol aborts the loop by
raising. -/
def resolve_fvs (dso : DSO) :
    List (String × String) → Except PyExc (List (String × BoundVariant))
  | [] => Except.ok []
  | (variant, symbol) :: rest =>
    match address_of_symbol dso symbol with
    | Except.error e => Except.error e
    | Except.ok address =>
      match resolve_fvs dso rest with
      | Except.error e => Except.error e
      | Except.ok tail =>
        Except.ok ((variant, ⟨symbol, address, address⟩) :: tail)

/-- overlay.py lines 129-148: fixing up one signature's dict. The
`eval`-uated CFUNCTYPE binding is modelled as resolved in place; the
top-level `symbol` is looked up, its pointer cast to a raw address and a
cfunc bound, then every feature variant is bound. -/
def resolve_variant (dso : DSO) (d : RawVariant) :
    Except PyExc ResolvedVariant :=
  match address_of_symbol dso d.symbol with
  | Except.error e => Except.error e
  | Except.ok ct_fptr =>
    match resolve_fvs dso d.feature_variants with
    | Except.error e => Except.error e
    | Except.ok tmp =>
      Except.ok
        { ctypes_cfunctype := d.ctypes_cfunctype
          symbol := d.symbol
          module := d.module
          source_file := d.source_file
          address := some ct_fptr
          cfunc := some ct_fptr
          feature_variants := tmp
          baseline_feature := d.baseline_feature
          metadata := d.metadata }

/-- overlay.py line 129: the `for sig, data in overloads.items()` loop. -/
def resolve_overloads (dso : DSO) :
    List (String × RawVariant) → Except PyExc (List (String × ResolvedVariant))
  | [] => Except.ok []
  | (sig, data) :: rest =>
    match resolve_variant dso data with
    | Except.error e => Except.error e
    | Except.ok d =>
      match resolve_overloads dso rest with
      | Except.error e => Except.error e
      | Except.ok tail => Except.ok ((sig, d) :: tail)

/-- overlay.py line 128: the `for sym, overloads in ...['symbols'].items()`
loop. -/
def resolve_symbols (dso : DSO) :
    List (String × List (String × RawVariant)) →
      Except PyExc (List (String × List (String × ResolvedVariant)))
  | [] => Except.ok []
  | (sym, overloads) :: rest =>
    match resolve_overloads dso overloads with
    | Except.error e => Except.error e
    | Except.ok r =>
      match resolve_symbols dso rest with
      | Except.error e => Except.error e
      | Except.ok tail => Except.ok ((sym, r) :: tail)

/-- overlay.py lines 118-153: the generic load path of `main` — open the
DSO, resolve every symbol's bindings, fill in `bitcode` from the image and
install the `specialize` closure for this module. -/
def generic_load (payload : PixieDict) (objName : String) (dso : DSO) :
    Except PyExc ResolvedPixie :=
  match resolve_symbols dso payload.symbols with
  | Except.error e => Except.error e
  | Except.ok symbols =>
    match get_bitcode dso objName with
    | Except.error e => Except.error e
    | Except.ok bc =>
      Except.ok
        { symbols := symbols
          c_header := payload.c_header
          linkage := payload.linkage
          bitcode := some bc
          uuid := payload.uuid
          is_specialized := payload.is_specialized
          specialize := some objName }

/-- overlay.py line 89: the name `main` probes with
`importlib.import_module` for a specialized counterpart of the module. -/
def sbs_name (objName : String) : String := objName ++ "_pixie_specialized"

/-- The ambient process state `main` interacts with: the importable modules
(already-initialised PIXIE extensions, for `importlib.import_module`) and
the shared object behind `obj.__file__` (for `ctypes.CDLL`). -/
structure LoadEnv where
  modules : List (String × ResolvedPixie)
  dso : DSO
  deriving DecidableEq

/-- The outcome of `main`: the dict written into `obj.__PIXIE__`, how many
times `warnings.warn` ran, and whether the early-return specialized branch
was taken. -/
structure MainResult where
  objPixie : ResolvedPixie
  warnings : Nat
  usedSpecialized : Bool
  deriving DecidableEq

/-- overlay.py lines 87-153 (`main`). A specialized module is imported when
present (an `ImportError` is swallowed); if its uuid equals the payload's
uuid, its `__PIXIE__` dict is adopted with `is_specialized` set to `True`
and `main` returns early; otherwise one warning is emitted and the generic
load path runs. -/
def main_run (payload : PixieDict) (objName : String) (env : LoadEnv) :
    Except PyExc MainResult :=
  match env.modules.lookup (sbs_name objName) with
  | some smod =>
    if payload.uuid = smod.uuid then
      Except.ok
        { objPixie := { smod with is_specialized := true }
          warnings := 0
          usedSpecialized := true }
    else
      match generic_load payload objName env.dso with
      | Except.error e => Except.error e
      | Except.ok r =>
        Except.ok { objPixie := r, warnings := 1, usedSpecialized := false }
  | none =>
    match generic_load payload objName env.dso with
    | Except.error e => Except.error e
    | Except.ok r =>
      Except.ok { objPixie := r, warnings := 0, usedSpecialized := false }

/-- overlay.py line 63: the library name `specialize` publishes under,
derived from the module's logical name. -/
def specializedLibName (moduleName : String) : String :=
  moduleName ++ "_pixie_specialized"

/-- overlay.py lines 34-38: `target_cpu` resolution inside `impl` —
`'host'` delegates to `llvm.get_host_cpu_name()` (passed in as
`host_cpu_name`), any other value is used as the explicit target. -/
def resolve_target_cpu (host_cpu_name : String) (baseline_cpu : String) :
    String :=
  if baseline_cpu = "host" then host_cpu_name else baseline_cpu

/-- overlay.py lines 39-42: `target_features` resolution inside `impl` —
`None` becomes the empty tuple, anything else is used as given. -/
def resolve_target_features : Option (List String) → List String
  | none => []
  | some fs => fs

/-- One `export_config.add_symbol(...)` record (overlay.py lines 58-60). -/
structure ExportSymbol where
  python_name : String
  symbol_name : String
  signature : String
  deriving DecidableEq

/-- The keyword arguments handed to `PIXIECompiler(...)` by `specialize`
(overlay.py lines 64-73). -/
structure CompilerConfig where
  library_name : String
  bitcode : Option (List Nat)
  export_symbols : List ExportSymbol
  baseline_cpu : String
  baseline_features : List String
  uuid : Option String
  output_dir : String
  deriving DecidableEq

/-- The on-disk artifact produced by a successful compilation. -/
structure Artifact where
  library_name : String
  output_dir : String
  uuid : Option String
  export_symbols : List ExportSymbol
  baseline_cpu : String
  baseline_features : List String
  deriving DecidableEq

/-- Failures of a `specialize` call. -/
inductive SpecExc where
  | recompilationFailure (msg : String)
  deriving DecidableEq

/-- The external collaborators `specialize` consults: the host CPU name
reported by llvmlite and the outcome of the code-generation backend
(`none` means the backend succeeds; `some msg` means it fails). -/
structure SpecEnv where
  host_cpu_name : String
  backend_failure : Option String
  deriving DecidableEq

/-- Modelled from the spec: `PIXIECompiler(...).compile()` is imported from
the `pixie` package and is not under src/. Per the spec, the packager stamps
the artifact with the explicitly carried-forward identity (the `uuid`
keyword), publishes the artifact only after the backend succeeds (no
partial artifact on failure), and reports backend failure as
`RecompilationFailure`. -/
def pixie_compiler_compile (cfg : CompilerConfig) (env : SpecEnv) :
    Except SpecExc Artifact :=
  match env.backend_failure with
  | some msg => Except.error (SpecExc.recompilationFailure msg)
  | none =>
    Except.ok
      { library_name := cfg.library_name
        output_dir := cfg.output_dir
        uuid := cfg.uuid
        export_symbols := cfg.export_symbols
        baseline_cpu := cfg.baseline_cpu
        baseline_features := cfg.baseline_features }

/-- The module object `specialize`'s closure captures: its logical name,
the directory of its `__file__`, and its resolved `__PIXIE__` dict as
installed by `main`. -/
structure ObjModule where
  name : String
  file_dir : String
  pixie : ResolvedPixie
  deriving DecidableEq

/-- overlay.py lines 56-60: the nested export loop of `specialize`,
flattening the symbols table into `add_symbol` records in iteration
order. -/
def export_symbols_of (symbols : List (String × List (String × ResolvedVariant))) :
    List ExportSymbol :=
  (symbols.map (fun pv =>
    pv.2.map (fun sd => ExportSymbol.mk pv.1 sd.2.symbol sd.1))).flatten

/-- overlay.py lines 32-76 (`specialize` / `impl`). The result triple is
(the Python return value of `impl`, the input module object afterwards, the
list of artifacts published on disk by the call). `impl` ends without a
`return` statement, so its Python value is `None`; on backend failure the
exception propagates and nothing is published. -/
def specialize_impl (obj : ObjModule) (env : SpecEnv) (baseline_cpu : String)
    (baseline_features : Option (List String)) :
    Except SpecExc (Option Artifact) × ObjModule × List Artifact :=
  let target_cpu := resolve_target_cpu env.host_cpu_name baseline_cpu
  let target_features := resolve_target_features baseline_features
  let bitcode := obj.pixie.bitcode
  let outdir := obj.file_dir
  let cfg : CompilerConfig :=
    { library_name := specializedLibName obj.name
      bitcode := bitcode
      export_symbols := export_symbols_of obj.pixie.symbols
      baseline_cpu := target_cpu
      baseline_features := target_features
      uuid := obj.pixie.uuid
      output_dir := outdir }
  match pixie_compiler_compile cfg env with
  | Except.error e => (Except.error e, obj, [])
  | Except.ok art => (Except.ok none, obj, [art])

/-! ### Spec-words definitions for the Dispatch Resolver comparison

The following definitions follow the specification's words (sections 4.1,
4.4 and 3), not the source; they exist to compare the load-time binding the
code performs against the selection the spec describes. -/

/-- Spec-words definition: `satisfies(host, required)` is true iff every
flag in `required` is present in `host`. -/
def spec_satisfies (host required : List String) : Bool :=
  required.all (fun f => host.contains f)

/-- Spec-words definition: `specificity` is monotonic in set size. -/
def spec_specificity (fs : List String) : Nat := fs.length

/-- Spec-words definition: a Variant of a Variant Group — a required
Feature Set and a compiled symbol name. -/
structure SpecVariant where
  required_features : List String
  symbol : String
  deriving DecidableEq

/-- Spec-words definition: select the satisfied Variant of maximal
specificity, first-inserted winning ties. -/
def spec_select : List SpecVariant → List String → Option SpecVariant
  | [], _ => none
  | v :: rest, host =>
    match spec_select rest host with
    | none =>
      if spec_satisfies host v.required_features then some v else none
    | some w =>
      if spec_satisfies host v.required_features ∧
          spec_specificity w.required_features ≤
            spec_specificity v.required_features
      then some v else some w

/-- The Variant Group one per-signature dict presents: the baseline (empty
required set, the top-level `symbol`) plus one Variant per feature variant,
requiring that feature. -/
def variant_group_of (d : RawVariant) : List SpecVariant :=
  ⟨[], d.symbol⟩ :: d.feature_variants.map (fun p => SpecVariant.mk [p.1] p.2)

/-! ### Concrete instances used by witnesses and counterexamples -/

/-- The specialized module's resolved dict used by the C1 witness. -/
def smod1w : ResolvedPixie :=
  { symbols := []
    c_header := []
    linkage := none
    bitcode := some [9]
    uuid := some "A1"
    is_specialized := false
    specialize := some "m_pixie_specialized" }

/-- The image behind the generic module used by the C1 witness. -/
def dso1w : DSO :=
  { symtab := [("get_bitcode_for_m_size", 10), ("get_bitcode_for_m", 11)]
    bitcode_bytes := [1, 2, 3] }

/-- The generic payload used by the C1 witness. -/
def p1w : PixieDict := { create_base_payload with uuid := some "A1" }

/-- The load environment used by the C1 witness: the specialized module is
registered under the conventional name and carries the matching uuid. -/
def env1w : LoadEnv :=
  { modules := [("m_pixie_specialized", smod1w)], dso := dso1w }

/-- What the generic path would produce for the C1 witness. -/
def gres1w : ResolvedPixie :=
  { symbols := []
    c_header := ["<write it>"]
    linkage := none
    bitcode := some [1, 2, 3]
    uuid := some "A1"
    is_specialized := false
    specialize := some "m" }

/-- The payload used by the C10 witness: one exported name with one
signature, a baseline symbol and one avx2 feature variant. -/
def p10w : PixieDict :=
  { create_base_payload with
      symbols := [("add", [("i64(i64,i64)",
        { ctypes_cfunctype := "ctypes.CFUNCTYPE(ctypes.c_long)"
          symbol := "_Z3addll"
          module := none
          source_file := none
          address := none
          cfunc := none
          feature_variants := [("avx2", "_Z3addll_avx2")]
          baseline_feature := "sse2"
          metadata := none })])]
      uuid := some "A1" }

/-- The image used by the C10 witness: both compiled symbols plus the
bitcode accessor pair for module name `m`. -/
def dso10w : DSO :=
  { symtab := [("_Z3addll", 100), ("_Z3addll_avx2", 200),
               ("get_bitcode_for_m_size", 10), ("get_bitcode_for_m", 11)]
    bitcode_bytes := [1, 2] }

/-- The resolved dict the generic load produces for the C10 witness. -/
def r10w : ResolvedPixie :=
  { symbols := [("add", [("i64(i64,i64)",
      { ctypes_cfunctype := "ctypes.CFUNCTYPE(ctypes.c_long)"
        symbol := "_Z3addll"
        module := none
        source_file := none
        address := some 100
        cfunc := some 100
        feature_variants := [("avx2", ⟨"_Z3addll_avx2", 200, 200⟩)]
        baseline_feature := "sse2"
        metadata := none })])]
    c_header := ["<write it>"]
    linkage := none
    bitcode := some [1, 2]
    uuid := some "A1"
    is_specialized := false
    specialize := some "m" }

/-- The payload used for C6: one exported name whose compiled symbol the
image lacks. -/
def p6w : PixieDict :=
  { create_base_payload with
      symbols := [("f", [("void(void)",
        { ctypes_cfunctype := "ctypes.CFUNCTYPE(None)"
          symbol := "_Z1fv"
          module := none
          source_file := none
          address := none
          cfunc := none
          feature_variants := []
          baseline_feature := "sse2"
          metadata := none })])] }

/-- An image with an empty symbol table, so `_Z1fv` cannot be located. -/
def dso6w : DSO := { symtab := [], bitcode_bytes := [] }

/-- The payload used by the C6 witness: the top-level symbol resolves but
the avx2 feature variant's symbol is absent from the image. -/
def p6fvw : PixieDict :=
  { create_base_payload with
      symbols := [("f", [("void(void)",
        { ctypes_cfunctype := "ctypes.CFUNCTYPE(None)"
          symbol := "_Z1fv"
          module := none
          source_file := none
          address := none
          cfunc := none
          feature_variants := [("avx2", "_Z1fv_avx2")]
          baseline_feature := "sse2"
          metadata := none })])] }

/-- An image holding the baseline symbol but not the feature variant's. -/
def dso6fvw : DSO := { symtab := [("_Z1fv", 100)], bitcode_bytes := [] }

/-- A Variant Group for the C2 counterexample: baseline symbol `f` and an
avx2 feature variant `f_avx2`. -/
def d2w : RawVariant :=
  { ctypes_cfunctype := "ctypes.CFUNCTYPE(ctypes.c_long)"
    symbol := "f"
    module := none
    source_file := none
    address := none
    cfunc := none
    feature_variants := [("avx2", "f_avx2")]
    baseline_feature := "sse2"
    metadata := none }

/-- An image holding both variants at distinct addresses. -/
def dso2w : DSO := { symtab := [("f", 100), ("f_avx2", 200)], bitcode_bytes := [] }

/-- What the load-time binding produces for `d2w` against `dso2w`. -/
def r2w : ResolvedVariant :=
  { ctypes_cfunctype := "ctypes.CFUNCTYPE(ctypes.c_long)"
    symbol := "f"
    module := none
    source_file := none
    address := some 100
    cfunc := some 100
    feature_variants := [("avx2", ⟨"f_avx2", 200, 200⟩)]
    baseline_feature := "sse2"
    metadata := none }

/-- The record `add_variant` builds for the C5 counterexample arguments. -/
def rv5w : RawVariant :=
  { ctypes_cfunctype := "ctypes.CFUNCTYPE(ctypes.c_long)"
    symbol := "f"
    module := none
    source_file := none
    address := none
    cfunc := none
    feature_variants := []
    baseline_feature := "sse2"
    metadata := none }

/-- The module used by the specialize witnesses. -/
def obj4w : ObjModule :=
  { name := "m"
    file_dir := "/site-packages/pkg"
    pixie :=
      { symbols := []
        c_header := []
        linkage := none
        bitcode := some [1, 2]
        uuid := some "A1"
        is_specialized := false
        specialize := some "m" } }

/-- A specialize environment whose backend succeeds. -/
def env4w : SpecEnv := { host_cpu_name := "skylake", backend_failure := none }

/-- The artifact `specialize` publishes for `obj4w` under `env4w` with an
explicit `cpu0` target. -/
def art4w : Artifact :=
  { library_name := "m_pixie_specialized"
    output_dir := "/site-packages/pkg"
    uuid := some "A1"
    export_symbols := []
    baseline_cpu := "cpu0"
    baseline_features := [] }

/-- A specialize environment whose backend fails. -/
def env9w : SpecEnv :=
  { host_cpu_name := "skylake", backend_failure := some "llvm verify failed" }

/-! ### Basic lemmas about the binding functions -/

lemma getattr_dso_error {dso : DSO} {name : String} {e : PyExc}
    (h : getattr_dso dso name = Except.error e) : e = PyExc.attributeError := by
  unfold getattr_dso at h
  split at h
  · exact Except.noConfusion h
  · exact (Except.error.inj h).symm

lemma address_of_symbol_error {dso : DSO} {name : String} {e : PyExc}
    (h : address_of_symbol dso name = Except.error e) :
    e = PyExc.attributeError :=
  getattr_dso_error h

lemma address_of_symbol_ok_lookup {dso : DSO} {name : String} {a : Nat}
    (h : address_of_symbol dso name = Except.ok a) :
    dso.symtab.lookup name = some a := by
  unfold address_of_symbol getattr_dso at h
  split at h
  · exact (Except.ok.inj h) ▸ ‹dso.symtab.lookup name = some _›
  · exact Except.noConfusion h

lemma get_bitcode_error {dso : DSO} {mod_name : String} {e : PyExc}
    (h : get_bitcode dso mod_name = Except.error e) :
    e = PyExc.attributeError := by
  unfold get_bitcode at h
  split at h
  next heq =>
    exact (Except.error.inj h) ▸ getattr_dso_error heq
  next =>
    split at h
    next heq =>
      exact (Except.error.inj h) ▸ getattr_dso_error heq
    next => exact Except.noConfusion h

lemma resolve_fvs_error {dso : DSO} :
    ∀ {l : List (String × String)} {e : PyExc},
      resolve_fvs dso l = Except.error e → e = PyExc.attributeError := by
  intro l
  induction l with
  | nil => intro e h; exact Except.noConfusion h
  | cons p rest ih =>
    intro e h
    obtain ⟨variant, symbol⟩ := p
    rw [resolve_fvs] at h
    split at h
    next heq => exact (Except.error.inj h) ▸ address_of_symbol_error heq
    next a heq =>
      split at h
      next heq2 => exact (Except.error.inj h) ▸ ih heq2
      next tail heq2 => exact Except.noConfusion h

lemma resolve_fvs_ok_symbols {dso : DSO} :
    ∀ {l : List (String × String)} {out : List (String × BoundVariant)},
      resolve_fvs dso l = Except.ok out →
        out.map (fun p => (p.1, p.2.symbol)) = l := by
  intro l
  induction l with
  | nil =>
    intro out h
    rw [resolve_fvs] at h
    rw [← Except.ok.inj h]
    rfl
  | cons p rest ih =>
    intro out h
    obtain ⟨variant, symbol⟩ := p
    rw [resolve_fvs] at h
    split at h
    next heq => exact Except.noConfusion h
    next a heq =>
      split at h
      next heq2 => exact Except.noConfusion h
      next tail heq2 =>
        rw [← Except.ok.inj h]
        simpa using ih heq2

lemma resolve_fvs_ok_bound {dso : DSO} :
    ∀ {l : List (String × String)} {out : List (String × BoundVariant)},
      resolve_fvs dso l = Except.ok out →
        ∀ p ∈ out, address_of_symbol dso p.2.symbol = Except.ok p.2.address ∧
          p.2.cfunc = p.2.address := by
  intro l
  induction l with
  | nil =>
    intro out h p hp
    rw [resolve_fvs] at h
    rw [← Except.ok.inj h] at hp
    exact absurd hp (List.not_mem_nil p)
  | cons q rest ih =>
    intro out h p hp
    obtain ⟨variant, symbol⟩ := q
    rw [resolve_fvs] at h
    split at h
    next heq => exact Except.noConfusion h
    next a heq =>
      split at h
      next heq2 => exact Except.noConfusion h
      next tail heq2 =>
        rw [← Except.ok.inj h] at hp
        rcases List.mem_cons.mp hp with hhead | htail
        · subst hhead
          exact ⟨heq, rfl⟩
        · exact ih heq2 p htail

lemma resolve_fvs_ok_all_present {dso : DSO} :
    ∀ {l : List (String × String)} {out : List (String × BoundVariant)},
      resolve_fvs dso l = Except.ok out →
        ∀ p ∈ l, ∃ a, address_of_symbol dso p.2 = Except.ok a := by
  intro l
  induction l with
  | nil => intro out _ p hp; exact absurd hp (List.not_mem_nil p)
  | cons q rest ih =>
    intro out h p hp
    obtain ⟨variant, symbol⟩ := q
    rw [resolve_fvs] at h
    split at h
    next heq => exact Except.noConfusion h
    next a heq =>
      split at h
      next heq2 => exact Except.noConfusion h
      next tail heq2 =>
        rcases List.mem_cons.mp hp with hhead | htail
        · subst hhead; exact ⟨a, heq⟩
        · exact ih heq2 p htail

lemma resolve_variant_error {dso : DSO} {d : RawVariant} {e : PyExc}
    (h : resolve_variant dso d = Except.error e) :
    e = PyExc.attributeError := by
  unfold resolve_variant at h
  split at h
  next heq => exact (Except.error.inj h) ▸ address_of_symbol_error heq
  next a heq =>
    split at h
    next heq2 => exact (Except.error.inj h) ▸ resolve_fvs_error heq2
    next tmp heq2 => exact Except.noConfusion h

lemma resolve_variant_ok {dso : DSO} {d : RawVariant} {r : ResolvedVariant}
    (h : resolve_variant dso d = Except.ok r) :
    r.symbol = d.symbol ∧
    (∃ a, address_of_symbol dso d.symbol = Except.ok a ∧
      r.address = some a ∧ r.cfunc = some a) ∧
    resolve_fvs dso d.feature_variants = Except.ok r.feature_variants := by
  unfold resolve_variant at h
  split at h
  next heq => exact Except.noConfusion h
  next a heq =>
    split at h
    next heq2 => exact Except.noConfusion h
    next tmp heq2 =>
      rw [← Except.ok.inj h]
      exact ⟨rfl, ⟨a, heq, rfl, rfl⟩, heq2⟩

lemma resolve_overloads_error {dso : DSO} :
    ∀ {l : List (String × RawVariant)} {e : PyExc},
      resolve_overloads dso l = Except.error e → e = PyExc.attributeError := by
  intro l
  induction l with
  | nil => intro e h; exact Except.noConfusion h
  | cons q rest ih =>
    intro e h
    obtain ⟨sig, data⟩ := q
    rw [resolve_overloads] at h
    split at h
    next heq => exact (Except.error.inj h) ▸ resolve_variant_error heq
    next d heq =>
      split at h
      next heq2 => exact (Except.error.inj h) ▸ ih heq2
      next tail heq2 => exact Except.noConfusion h

lemma resolve_overloads_ok_mem {dso : DSO} :
    ∀ {l : List (String × RawVariant)} {out : List (String × ResolvedVariant)},
      resolve_overloads dso l = Except.ok out →
        ∀ p ∈ out, ∃ d, (p.1, d) ∈ l ∧ resolve_variant dso d = Except.ok p.2 := by
  intro l
  induction l with
  | nil =>
    intro out h p hp
    rw [resolve_overloads] at h
    rw [← Except.ok.inj h] at hp
    exact absurd hp (List.not_mem_nil p)
  | cons q rest ih =>
    intro out h p hp
    obtain ⟨sig, data⟩ := q
    rw [resolve_overloads] at h
    split at h
    next heq => exact Except.noConfusion h
    next d heq =>
      split at h
      next heq2 => exact Except.noConfusion h
      next tail heq2 =>
        rw [← Except.ok.inj h] at hp
        rcases List.mem_cons.mp hp with hhead | htail
        · subst hhead
          exact ⟨data, List.mem_cons_self _ _, heq⟩
        · obtain ⟨d', hd', hres⟩ := ih heq2 p htail
          exact ⟨d', List.mem_cons_of_mem _ hd', hres⟩

lemma resolve_overloads_ok_present {dso : DSO} :
    ∀ {l : List (String × RawVariant)} {out : List (String × ResolvedVariant)},
      resolve_overloads dso l = Except.ok out →
        ∀ q ∈ l, ∃ a, address_of_symbol dso q.2.symbol = Except.ok a := by
  intro l
  induction l with
  | nil => intro out _ q hq; exact absurd hq (List.not_mem_nil q)
  | cons q0 rest ih =>
    intro out h q hq
    obtain ⟨sig, data⟩ := q0
    rw [resolve_overloads] at h
    split at h
    next heq => exact Except.noConfusion h
    next d heq =>
      split at h
      next heq2 => exact Except.noConfusion h
      next tail heq2 =>
        rcases List.mem_cons.mp hq with hhead | htail
        · subst hhead
          obtain ⟨-, ⟨a, ha, -, -⟩, -⟩ := resolve_variant_ok heq
          exact ⟨a, ha⟩
        · exact ih heq2 q htail

lemma resolve_symbols_error {dso : DSO} :
    ∀ {l : List (String × List (String × RawVariant))} {e : PyExc},
      resolve_symbols dso l = Except.error e → e = PyExc.attributeError := by
  intro l
  induction l with
  | nil => intro e h; exact Except.noConfusion h
  | cons q rest ih =>
    intro e h
    obtain ⟨sym, overloads⟩ := q
    rw [resolve_symbols] at h
    split at h
    next heq => exact (Except.error.inj h) ▸ resolve_overloads_error heq
    next r heq =>
      split at h
      next heq2 => exact (Except.error.inj h) ▸ ih heq2
      next tail heq2 => exact Except.noConfusion h

lemma resolve_symbols_ok_mem {dso : DSO} :
    ∀ {l : List (String × List (String × RawVariant))}
      {out : List (String × List (String × ResolvedVariant))},
      resolve_symbols dso l = Except.ok out →
        ∀ p ∈ out, ∀ q ∈ p.2,
          ∃ d, resolve_variant dso d = Except.ok q.2 := by
  intro l
  induction l with
  | nil =>
    intro out h p hp
    rw [resolve_symbols] at h
    rw [← Except.ok.inj h] at hp
    exact absurd hp (List.not_mem_nil p)
  | cons q0 rest ih =>
    intro out h p hp q hq
    obtain ⟨sym, overloads⟩ := q0
    rw [resolve_symbols] at h
    split at h
    next heq => exact Except.noConfusion h
    next r heq =>
      split at h
      next heq2 => exact Except.noConfusion h
      next tail heq2 =>
        rw [← Except.ok.inj h] at hp
        rcases List.mem_cons.mp hp with hhead | htail
        · subst hhead
          obtain ⟨d, -, hres⟩ := resolve_overloads_ok_mem heq q hq
          exact ⟨d, hres⟩
        · exact ih heq2 p htail q hq

lemma resolve_symbols_ok_present {dso : DSO} :
    ∀ {l : List (String × List (String × RawVariant))}
      {out : List (String × List (String × ResolvedVariant))},
      resolve_symbols dso l = Except.ok out →
        ∀ p ∈ l, ∀ q ∈ p.2,
          ∃ a, address_of_symbol dso q.2.symbol = Except.ok a := by
  intro l
  induction l with
  | nil => intro out _ p hp; exact absurd hp (List.not_mem_nil p)
  | cons q0 rest ih =>
    intro out h p hp q hq
    obtain ⟨sym, overloads⟩ := q0
    rw [resolve_symbols] at h
    split at h
    next heq => exact Except.noConfusion h
    next r heq =>
      split at h
      next heq2 => exact Except.noConfusion h
      next tail heq2 =>
        rcases List.mem_cons.mp hp with hhead | htail
        · subst hhead
          exact resolve_overloads_ok_present heq q hq
        · exact ih heq2 p htail q hq

lemma resolve_overloads_ok_resolves {dso : DSO} :
    ∀ {l : List (String × RawVariant)} {out : List (String × ResolvedVariant)},
      resolve_overloads dso l = Except.ok out →
        ∀ q ∈ l, ∃ r, resolve_variant dso q.2 = Except.ok r := by
  intro l
  induction l with
  | nil => intro out _ q hq; exact absurd hq (List.not_mem_nil q)
  | cons q0 rest ih =>
    intro out h q hq
    obtain ⟨sig, data⟩ := q0
    rw [resolve_overloads] at h
    split at h
    next heq => exact Except.noConfusion h
    next d heq =>
      split at h
      next heq2 => exact Except.noConfusion h
      next tail heq2 =>
        rcases List.mem_cons.mp hq with hhead | htail
        · subst hhead; exact ⟨d, heq⟩
        · exact ih heq2 q htail

lemma resolve_symbols_ok_resolves {dso : DSO} :
    ∀ {l : List (String × List (String × RawVariant))}
      {out : List (String × List (String × ResolvedVariant))},
      resolve_symbols dso l = Except.ok out →
        ∀ p ∈ l, ∀ q ∈ p.2,
          ∃ r, resolve_variant dso q.2 = Except.ok r := by
  intro l
  induction l with
  | nil => intro out _ p hp; exact absurd hp (List.not_mem_nil p)
  | cons q0 rest ih =>
    intro out h p hp q hq
    obtain ⟨sym, overloads⟩ := q0
    rw [resolve_symbols] at h
    split at h
    next heq => exact Except.noConfusion h
    next r heq =>
      split at h
      next heq2 => exact Except.noConfusion h
      next tail heq2 =>
        rcases List.mem_cons.mp hp with hhead | htail
        · subst hhead
          exact resolve_overloads_ok_resolves heq q hq
        · exact ih heq2 p htail q hq

lemma generic_load_error {payload : PixieDict} {objName : String} {dso : DSO}
    {e : PyExc} (h : generic_load payload objName dso = Except.error e) :
    e = PyExc.attributeError := by
  unfold generic_load at h
  split at h
  next heq => exact (Except.error.inj h) ▸ resolve_symbols_error heq
  next symbols heq =>
    split at h
    next heq2 => exact (Except.error.inj h) ▸ get_bitcode_error heq2
    next bc heq2 => exact Except.noConfusion h

lemma generic_load_ok_parts {payload : PixieDict} {objName : String}
    {dso : DSO} {r : ResolvedPixie}
    (h : generic_load payload objName dso = Except.ok r) :
    resolve_symbols dso payload.symbols = Except.ok r.symbols ∧
    (∃ bc, get_bitcode dso objName = Except.ok bc ∧ r.bitcode = some bc) ∧
    r.specialize = some objName ∧ r.uuid = payload.uuid := by
  unfold generic_load at h
  split at h
  next heq => exact Except.noConfusion h
  next symbols heq =>
    split at h
    next heq2 => exact Except.noConfusion h
    next bc heq2 =>
      rw [← Except.ok.inj h]
      exact ⟨heq, ⟨bc, heq2, rfl⟩, rfl, rfl⟩

/-! ### Claim C1 -/

/-- C1: for every load where a specialized artifact is discoverable, `main`
reaches the specialized-loaded state (adopting the specialized module's
manifest with its `is_specialized` flag set to true) iff the specialized
uuid equals the payload's uuid; when the uuids differ it emits exactly one
non-fatal warning, raises no exception, and continues with the generic
artifact's bindings. -/
theorem c1_specialized_iff_identity (payload : PixieDict) (objName : String)
    (env : LoadEnv) (smod gres : ResolvedPixie)
    (hdisc : env.modules.lookup (sbs_name objName) = some smod)
    (hgen : generic_load payload objName env.dso = Except.ok gres) :
    (∀ res, main_run payload objName env = Except.ok res →
      (res.usedSpecialized = true ↔ payload.uuid = smod.uuid)) ∧
    (payload.uuid = smod.uuid →
      main_run payload objName env =
        Except.ok ⟨{ smod with is_specialized := true }, 0, true⟩) ∧
    (payload.uuid ≠ smod.uuid →
      main_run payload objName env = Except.ok ⟨gres, 1, false⟩) := by
  by_cases huuid : payload.uuid = smod.uuid
  · have hrun : main_run payload objName env =
        Except.ok ⟨{ smod with is_specialized := true }, 0, true⟩ := by
      unfold main_run
      rw [hdisc]
      simp [huuid]
    refine ⟨?_, fun _ => hrun, fun hne => absurd huuid hne⟩
    intro res hres
    rw [hrun] at hres
    rw [← Except.ok.inj hres]
    simpa using huuid
  · have hrun : main_run payload objName env = Except.ok ⟨gres, 1, false⟩ := by
      unfold main_run
      rw [hdisc]
      simp [huuid, hgen]
    refine ⟨?_, fun he => absurd he huuid, fun _ => hrun⟩
    intro res hres
    rw [hrun] at hres
    rw [← Except.ok.inj hres]
    simpa using huuid

theorem c1_specialized_iff_identity_witness :
    main_run p1w "m" env1w =
      Except.ok ⟨{ smod1w with is_specialized := true }, 0, true⟩ :=
  (c1_specialized_iff_identity p1w "m" env1w smod1w gres1w (by decide)
    (by decide)).2.1 rfl

/-! ### Claim C10 -/

/-- C10: whenever the generic load path completes without error, the
resulting dict is fully resolved before it is installed: every signature's
`address` and `cfunc` are populated, every feature-variant entry carries its
own symbol with a bound address and cfunc, and the `bitcode` and
`specialize` entries are populated. -/
theorem c10_generic_load_fully_resolved (payload : PixieDict)
    (objName : String) (dso : DSO) (r : ResolvedPixie)
    (h : generic_load payload objName dso = Except.ok r) :
    (∀ p ∈ r.symbols, ∀ q ∈ p.2,
      q.2.address.isSome ∧ q.2.cfunc.isSome ∧
      ∀ fv ∈ q.2.feature_variants,
        address_of_symbol dso fv.2.symbol = Except.ok fv.2.address ∧
          fv.2.cfunc = fv.2.address) ∧
    r.bitcode.isSome ∧ r.specialize.isSome := by
  obtain ⟨hsym, ⟨bc, -, hbc⟩, hspec, -⟩ := generic_load_ok_parts h
  refine ⟨?_, by rw [hbc]; rfl, by rw [hspec]; rfl⟩
  intro p hp q hq
  obtain ⟨d, hres⟩ := resolve_symbols_ok_mem hsym p hp q hq
  obtain ⟨-, ⟨a, -, ha, hc⟩, hfv⟩ := resolve_variant_ok hres
  refine ⟨by rw [ha]; rfl, by rw [hc]; rfl, ?_⟩
  intro fv hfv2
  exact resolve_fvs_ok_bound hfv fv hfv2

theorem c10_generic_load_fully_resolved_witness :
    (∀ p ∈ r10w.symbols, ∀ q ∈ p.2,
      q.2.address.isSome ∧ q.2.cfunc.isSome ∧
      ∀ fv ∈ q.2.feature_variants,
        address_of_symbol dso10w fv.2.symbol = Except.ok fv.2.address ∧
          fv.2.cfunc = fv.2.address) ∧
    r10w.bitcode.isSome ∧ r10w.specialize.isSome :=
  c10_generic_load_fully_resolved p10w "m" dso10w r10w (by decide)

/-! ### Claim C6 -/

/-- C6 counterexample: when a promised symbol cannot be located, the load
aborts with Python's `AttributeError` (the `getattr` failure on the
`ctypes.CDLL`), not with the `MissingSymbolError` the claim names — no code
path raises `MissingSymbolError`. -/
theorem c6_counterexample :
    generic_load p6w "m" dso6w = Except.error PyExc.attributeError ∧
    generic_load p6w "m" dso6w ≠ Except.error PyExc.missingSymbolError := by
  constructor
  · decide
  · decide

/-- C6 (amended): for every load in which some promised compiled symbol —
a signature's top-level baseline symbol or any of its feature variants'
symbols — cannot be located in the loaded image, the generic load path
raises `AttributeError`: the load is aborted as fatal (the error propagates
out of `main`) and no resolved dict is installed. -/
theorem c6_missing_symbol_aborts (payload : PixieDict) (objName : String)
    (dso : DSO)
    (h : ∃ p ∈ payload.symbols, ∃ q ∈ p.2,
      dso.symtab.lookup q.2.symbol = none ∨
        ∃ fv ∈ q.2.feature_variants, dso.symtab.lookup fv.2 = none) :
    generic_load payload objName dso = Except.error PyExc.attributeError := by
  cases hres : generic_load payload objName dso with
  | ok r =>
    exfalso
    obtain ⟨p, hp, q, hq, hmiss⟩ := h
    obtain ⟨hsym, -, -, -⟩ := generic_load_ok_parts hres
    obtain ⟨rv, hrv⟩ := resolve_symbols_ok_resolves hsym p hp q hq
    obtain ⟨-, ⟨a, ha, -, -⟩, hfvok⟩ := resolve_variant_ok hrv
    rcases hmiss with hnone | ⟨fv, hfv, hnone⟩
    · rw [address_of_symbol_ok_lookup ha] at hnone
      exact Option.noConfusion hnone
    · obtain ⟨b, hb⟩ := resolve_fvs_ok_all_present hfvok fv hfv
      rw [address_of_symbol_ok_lookup hb] at hnone
      exact Option.noConfusion hnone
  | error e => rw [generic_load_error hres]

theorem c6_missing_symbol_aborts_witness :
    generic_load p6fvw "m" dso6fvw = Except.error PyExc.attributeError :=
  c6_missing_symbol_aborts p6fvw "m" dso6fvw (by decide)

/-! ### Claim C2 -/

/-- C2 counterexample: for the group with a baseline and an avx2 variant and
a host Feature Set containing avx2, the spec-words selection picks the avx2
variant (symbol `f_avx2`, address 200), but the code's resolver exposes the
baseline symbol `f` (address 100) as the group's top-level binding — the
resolver consults no host Feature Set and performs no selection. -/
theorem c2_counterexample :
    resolve_variant dso2w d2w = Except.ok r2w ∧
    spec_select (variant_group_of d2w) ["avx2"] =
      some (SpecVariant.mk ["avx2"] "f_avx2") ∧
    address_of_symbol dso2w "f_avx2" = Except.ok 200 ∧
    r2w.address = some 100 ∧
    r2w.address ≠ some 200 := by
  refine ⟨by decide, by decide, by decide, rfl, by decide⟩

/-- C2 (amended): for every Variant Group, the load-time resolver binds the
baseline variant's symbol as the group's exposed `address`/`cfunc`
regardless of any host Feature Set (it takes no host-feature input), and in
addition binds every feature variant of the group — in insertion order and
each to its own symbol's address — in the `feature_variants` table; no
maximal-specificity selection is performed at load time. -/
theorem c2_resolver_binds_baseline_and_every_variant (dso : DSO)
    (d : RawVariant) (r : ResolvedVariant)
    (h : resolve_variant dso d = Except.ok r) :
    r.symbol = d.symbol ∧
    (∃ a, address_of_symbol dso d.symbol = Except.ok a ∧
      r.address = some a ∧ r.cfunc = some a) ∧
    r.feature_variants.map (fun p => (p.1, p.2.symbol)) = d.feature_variants ∧
    (∀ p ∈ r.feature_variants,
      address_of_symbol dso p.2.symbol = Except.ok p.2.address ∧
        p.2.cfunc = p.2.address) := by
  obtain ⟨hsym, htop, hfv⟩ := resolve_variant_ok h
  exact ⟨hsym, htop, resolve_fvs_ok_symbols hfv, resolve_fvs_ok_bound hfv⟩

theorem c2_resolver_binds_baseline_and_every_variant_witness :
    r2w.symbol = d2w.symbol ∧
    (∃ a, address_of_symbol dso2w d2w.symbol = Except.ok a ∧
      r2w.address = some a ∧ r2w.cfunc = some a) ∧
    r2w.feature_variants.map (fun p => (p.1, p.2.symbol)) =
      d2w.feature_variants ∧
    (∀ p ∈ r2w.feature_variants,
      address_of_symbol dso2w p.2.symbol = Except.ok p.2.address ∧
        p.2.cfunc = p.2.address) :=
  c2_resolver_binds_baseline_and_every_variant dso2w d2w r2w (by decide)

/-! ### Claim C5 -/

/-- C5 counterexample: calling `add_variant` a second time with arguments
identical to an earlier call does not fail — the call is stateless, performs
no duplicate detection, and returns the same fresh record again; in
particular it never raises `DuplicateVariantError`. -/
theorem c5_counterexample :
    add_variant "ctypes.CFUNCTYPE(ctypes.c_long)" "f" "sse2" none none none
        none = Except.ok rv5w ∧
    add_variant "ctypes.CFUNCTYPE(ctypes.c_long)" "f" "sse2" none none none
        none ≠ Except.error ManifestExc.duplicateVariantError := by
  exact ⟨by decide, by decide⟩

/-- C5 (amended): `add_variant` performs no duplicate detection at all: for
every argument list — in particular for a repeated call with arguments
identical to an existing Variant's — it succeeds, returning a fresh
unresolved record, and never raises `DuplicateVariantError`; no uniqueness
of (name, signature, feature set) triples is enforced by the code. -/
theorem c5_add_variant_never_raises (ct sym base : String)
    (fv : Option (List (String × String))) (m sf md : Option String) :
    (∃ d, add_variant ct sym base fv m sf md = Except.ok d ∧
      d.address = none ∧ d.cfunc = none ∧ d.symbol = sym) ∧
    add_variant ct sym base fv m sf md ≠
      Except.error ManifestExc.duplicateVariantError := by
  refine ⟨⟨_, rfl, rfl, rfl, rfl⟩, ?_⟩
  intro h
  exact Except.noConfusion h

/-! ### Claims C3, C4, C9 (specialize) -/

/-- C3: the artifact produced by `specialize` carries the identity (uuid) of
the input artifact forward unchanged, so the two artifacts are
identity-equal; the input module is returned untouched. -/
theorem c3_specialize_carries_uuid (obj : ObjModule) (env : SpecEnv)
    (baseline_cpu : String) (baseline_features : Option (List String))
    (h : env.backend_failure = none) :
    ∃ art, specialize_impl obj env baseline_cpu baseline_features =
        (Except.ok none, obj, [art]) ∧
      art.uuid = obj.pixie.uuid := by
  cases env with
  | mk hc bf =>
    cases h
    exact ⟨_, rfl, rfl⟩

theorem c3_specialize_carries_uuid_witness :
    ∃ art, specialize_impl obj4w env4w "cpu0" none =
        (Except.ok none, obj4w, [art]) ∧
      art.uuid = obj4w.pixie.uuid :=
  c3_specialize_carries_uuid obj4w env4w "cpu0" none rfl

/-- C4 counterexample: a successful `specialize` call leaves the input
module unchanged and publishes one artifact on disk, but its Python return
value is `None` — it does not return a new Artifact as its result. -/
theorem c4_counterexample :
    specialize_impl obj4w env4w "cpu0" none =
      (Except.ok none, obj4w, [art4w]) ∧
    ¬ ∃ a : Artifact,
        (specialize_impl obj4w env4w "cpu0" none).1 = Except.ok (some a) := by
  refine ⟨by decide, ?_⟩
  rintro ⟨a, ha⟩
  rw [show (specialize_impl obj4w env4w "cpu0" none).1 =
      Except.ok (none : Option Artifact) from by decide] at ha
  exact Option.noConfusion (Except.ok.inj ha)

/-- C4 (amended): for every call whose backend succeeds, `specialize` leaves
its input module — manifest, symbols, identity and bindings — unchanged,
publishes exactly one new artifact on disk, and returns `None` (the new
artifact is published at the conventional location rather than returned). -/
theorem c4_specialize_no_mutation (obj : ObjModule) (env : SpecEnv)
    (baseline_cpu : String) (baseline_features : Option (List String))
    (h : env.backend_failure = none) :
    ∃ art, specialize_impl obj env baseline_cpu baseline_features =
      (Except.ok none, obj, [art]) := by
  cases env with
  | mk hc bf =>
    cases h
    exact ⟨_, rfl⟩

theorem c4_specialize_no_mutation_witness :
    ∃ art, specialize_impl obj4w env4w "cpu0" none =
      (Except.ok none, obj4w, [art]) :=
  c4_specialize_no_mutation obj4w env4w "cpu0" none rfl

/-- C9: when the code-generation backend fails during `specialize`, the
failure surfaces to the caller as `RecompilationFailure`, the input module
is unchanged (the already-loaded artifact stays fully usable), and no
artifact is published. -/
theorem c9_backend_failure_surfaces (obj : ObjModule) (env : SpecEnv)
    (baseline_cpu : String) (baseline_features : Option (List String))
    (msg : String) (h : env.backend_failure = some msg) :
    specialize_impl obj env baseline_cpu baseline_features =
      (Except.error (SpecExc.recompilationFailure msg), obj, []) := by
  cases env with
  | mk hc bf =>
    cases h
    rfl

theorem c9_backend_failure_surfaces_witness :
    specialize_impl obj4w env9w "cpu0" none =
      (Except.error (SpecExc.recompilationFailure "llvm verify failed"),
        obj4w, []) :=
  c9_backend_failure_surfaces obj4w env9w "cpu0" none "llvm verify failed" rfl

/-! ### Claim C7 -/

/-- C7: `specialize` resolves the target spec `"host"` by querying the
executing host's CPU, uses any other value as the explicit target, and
resolves an absent feature argument to the empty feature set; the resolved
target is what the published artifact is compiled for. -/
theorem c7_target_resolution (obj : ObjModule) (env : SpecEnv)
    (cpu : String) (feats : Option (List String))
    (hok : env.backend_failure = none) (hne : cpu ≠ "host") :
    resolve_target_cpu env.host_cpu_name "host" = env.host_cpu_name ∧
    resolve_target_cpu env.host_cpu_name cpu = cpu ∧
    resolve_target_features none = [] ∧
    (∃ art, specialize_impl obj env cpu feats =
        (Except.ok none, obj, [art]) ∧
      art.baseline_cpu = cpu ∧
      art.baseline_features = resolve_target_features feats) ∧
    (∃ art, specialize_impl obj env "host" feats =
        (Except.ok none, obj, [art]) ∧
      art.baseline_cpu = env.host_cpu_name) := by
  cases env with
  | mk hc bf =>
    cases hok
    refine ⟨by simp [resolve_target_cpu],
      by simp [resolve_target_cpu, hne], rfl, ?_, ?_⟩
    · refine ⟨_, rfl, ?_, rfl⟩
      show resolve_target_cpu hc cpu = cpu
      simp [resolve_target_cpu, hne]
    · refine ⟨_, rfl, ?_⟩
      show resolve_target_cpu hc "host" = hc
      simp [resolve_target_cpu]

theorem c7_target_resolution_witness :
    resolve_target_cpu env4w.host_cpu_name "host" = env4w.host_cpu_name ∧
    resolve_target_cpu env4w.host_cpu_name "cpu0" = "cpu0" ∧
    resolve_target_features none = [] ∧
    (∃ art, specialize_impl obj4w env4w "cpu0" (some ["avx2"]) =
        (Except.ok none, obj4w, [art]) ∧
      art.baseline_cpu = "cpu0" ∧
      art.baseline_features = resolve_target_features (some ["avx2"])) ∧
    (∃ art, specialize_impl obj4w env4w "host" (some ["avx2"]) =
        (Except.ok none, obj4w, [art]) ∧
      art.baseline_cpu = env4w.host_cpu_name) :=
  c7_target_resolution obj4w env4w "cpu0" (some ["avx2"]) rfl (by decide)

/-! ### Claim C8 -/

/-- C8: the on-disk location `specialize` publishes to is derived
deterministically from the module's logical name (`<name>_pixie_specialized`
next to the module's own file), and that is exactly the name the Load
Manager probes on the next load of that module: registering the published
artifact under its name makes `main` discover and (identity permitting)
adopt it. -/
theorem c8_publish_location_roundtrip (obj : ObjModule) (env : SpecEnv)
    (cpu : String) (feats : Option (List String)) (payload : PixieDict)
    (smod : ResolvedPixie) (dso : DSO)
    (hok : env.backend_failure = none)
    (huuid : payload.uuid = smod.uuid) :
    specializedLibName obj.name = sbs_name obj.name ∧
    ∃ art, specialize_impl obj env cpu feats =
        (Except.ok none, obj, [art]) ∧
      art.library_name = specializedLibName obj.name ∧
      art.output_dir = obj.file_dir ∧
      main_run payload obj.name ⟨[(art.library_name, smod)], dso⟩ =
        Except.ok ⟨{ smod with is_specialized := true }, 0, true⟩ := by
  cases env with
  | mk hc bf =>
    cases hok
    refine ⟨rfl, _, rfl, rfl, rfl, ?_⟩
    show main_run payload obj.name
        ⟨[(specializedLibName obj.name, smod)], dso⟩ = _
    unfold main_run
    have hlk : ([(specializedLibName obj.name, smod)] :
        List (String × ResolvedPixie)).lookup (sbs_name obj.name) =
        some smod := by
      simp [List.lookup, sbs_name, specializedLibName]
    rw [show (LoadEnv.mk [(specializedLibName obj.name, smod)] dso).modules =
      [(specializedLibName obj.name, smod)] from rfl]
    rw [hlk]
    simp [huuid]

theorem c8_publish_location_roundtrip_witness :
    specializedLibName obj4w.name = sbs_name obj4w.name ∧
    ∃ art, specialize_impl obj4w env4w "cpu0" none =
        (Except.ok none, obj4w, [art]) ∧
      art.library_name = specializedLibName obj4w.name ∧
      art.output_dir = obj4w.file_dir ∧
      main_run p1w obj4w.name ⟨[(art.library_name, smod1w)], dso1w⟩ =
        Except.ok ⟨{ smod1w with is_specialized := true }, 0, true⟩ :=
  c8_publish_location_roundtrip obj4w env4w "cpu0" none p1w smod1w dso1w
    rfl rfl

end PixieOverlay
